import Mathlib

/-
Formal model of the reward-efficiency engine of the NodeSet dashboard backend
(SteelyNinja/nodeset-dashboard-v2).  The definitions below are shallow
embeddings of:

  * backend/corrected_theoretical_performance.py
      (calculate_corrected_theoretical_performance: the SQL CTE pipeline and
       the Python post-processing),
  * backend/routers/nodeset.py
      (get_validators_down / get_validators_down_extended,
       get_below_threshold / get_below_threshold_extended,
       get_theoretical_performance / get_theoretical_performance_extended,
       get_theoretical_performance_all / _all_extended),
  * backend/services/analytics.py
      (AnalyticsService._calculate_attestation_only_performance) and
    backend/analysis.py (calculate_attestation_performance).

Python floats and SQL numerics are modelled as exact rationals; machine
integer widths never matter at the scales involved.  SQL NULL-able columns
are Option.  `round(x, n)` is modelled with Mathlib's `round` (the two differ
only on exact half-way ties, which no statement below exercises).
-/

/-- Validator lifecycle status, the val_status column of the
validators_summary table. -/
inductive ValStatus where
  | pending_initialized
  | pending_queued
  | active_ongoing
  | active_exiting
  | exited
  | withdrawal_possible
  | withdrawal_done
deriving DecidableEq, Repr

/-- Statuses filtered out by the routers' condition
val_status NOT IN ('exited', 'withdrawal_possible', 'withdrawal_done'). -/
def ValStatus.isTerminal : ValStatus → Bool
  | .exited => true
  | .withdrawal_possible => true
  | .withdrawal_done => true
  | _ => false

/-- One row of validators_summary, one per (validator, epoch).  Reward and
penalty columns are nonnegative gwei amounts; NULL-able columns are Option.
Operators are identified by a numeral key standing for val_nos_name. -/
structure DutyRow where
  val_id : ℕ
  val_nos_name : Option ℕ
  epoch : ℤ
  val_status : ValStatus
  att_happened : Option Bool
  att_earned_reward : Option ℕ
  att_missed_reward : Option ℕ
  att_penalty : Option ℕ
  is_proposer : Bool
  block_proposed : Option Bool
  propose_earned_reward : Option ℕ
  is_sync : Bool
  sync_earned_reward : Option ℕ
  sync_missed_reward : Option ℕ
deriving DecidableEq, Repr

/-- WHERE clause of the validator_data CTE in
calculate_corrected_theoretical_performance (and likewise of the per-operator
group of get_theoretical_performance's bulk query): epoch within
[start_epoch, end_epoch], the requested operator, terminal statuses excluded. -/
def validator_data (rows : List DutyRow) (start_epoch end_epoch : ℤ)
    (operator_name : ℕ) : List DutyRow :=
  rows.filter fun r =>
    decide (start_epoch ≤ r.epoch) && decide (r.epoch ≤ end_epoch) &&
      (r.val_nos_name == some operator_name) && !r.val_status.isTerminal

/-- CASE WHEN val_status = 'active_ongoing' THEN 1 ELSE 0 END. -/
def is_active_duty (r : DutyRow) : Bool := r.val_status == .active_ongoing

/-- CASE WHEN val_status IN ('pending_initialized', 'pending_queued'). -/
def is_pending (r : DutyRow) : Bool :=
  r.val_status == .pending_initialized || r.val_status == .pending_queued

/-- CASE WHEN val_status = 'active_ongoing' AND att_happened = 1. -/
def successful_attestation (r : DutyRow) : Bool :=
  is_active_duty r && r.att_happened == some true

/-- CASE WHEN val_status = 'active_ongoing' AND (att_happened = 0 OR
att_happened IS NULL): the null-as-miss classification of the aggregator. -/
def missed_attestation (r : DutyRow) : Bool :=
  is_active_duty r && (r.att_happened == some false || r.att_happened == none)

/-- COUNT(DISTINCT val_id). -/
def validator_count (data : List DutyRow) : ℕ :=
  ((data.map (·.val_id)).dedup).length

/-- SUM(is_active_duty). -/
def active_duty_periods (data : List DutyRow) : ℕ := data.countP is_active_duty

/-- SUM(successful_attestation). -/
def successful_attestations (data : List DutyRow) : ℕ :=
  data.countP successful_attestation

/-- SUM(missed_attestation): the aggregator's missed-attestation count. -/
def missed_attestations (data : List DutyRow) : ℕ :=
  data.countP missed_attestation

/-- SUM(is_pending). -/
def pending_periods (data : List DutyRow) : ℕ := data.countP is_pending

/-- SUM(CASE WHEN is_active_duty = 1 THEN COALESCE(att_earned_reward, 0)). -/
def total_actual_rewards (data : List DutyRow) : ℕ :=
  (data.map fun r => if is_active_duty r then r.att_earned_reward.getD 0 else 0).sum

/-- SUM(CASE WHEN is_active_duty = 1 THEN COALESCE(att_penalty, 0)). -/
def total_penalties (data : List DutyRow) : ℕ :=
  (data.map fun r => if is_active_duty r then r.att_penalty.getD 0 else 0).sum

/-- Values entering AVG(CASE WHEN successful_attestation = 1 AND
att_earned_reward IS NOT NULL THEN att_earned_reward END): only nullity is
tested, so a zero earned reward stays in the average. -/
def avg_reward_rows (data : List DutyRow) : List ℕ :=
  (data.filter fun r => successful_attestation r && r.att_earned_reward.isSome).map
    fun r => r.att_earned_reward.getD 0

/-- SQL AVG of avg_reward_rows; NULL (none) when no row qualifies. -/
def avg_reward_opt (data : List DutyRow) : Option ℚ :=
  if avg_reward_rows data = [] then none
  else some (((avg_reward_rows data).sum : ℚ) / ((avg_reward_rows data).length : ℚ))

/-- Python line `avg_reward_per_attestation = float(row[8]) if row[8] else
0.0`: a NULL or zero average is coalesced to 0.0. -/
def avg_reward_per_attestation (data : List DutyRow) : ℚ :=
  match avg_reward_opt data with
  | none => 0
  | some q => if q = 0 then 0 else q

/-- COUNT(*) over validator_data. -/
def total_data_points (data : List DutyRow) : ℕ := data.length

/-- end_epoch - start_epoch + 1. -/
def epochs_in_period (start_epoch end_epoch : ℤ) : ℤ :=
  end_epoch - start_epoch + 1

/-- validator_count * epochs_in_period. -/
def expected_total_epochs (start_epoch end_epoch : ℤ) (data : List DutyRow) : ℤ :=
  (validator_count data : ℤ) * epochs_in_period start_epoch end_epoch

/-- net_rewards = total_actual_rewards - total_penalties. -/
def net_rewards (data : List DutyRow) : ℤ :=
  (total_actual_rewards data : ℤ) - (total_penalties data : ℤ)

/-- max_possible_rewards = active_duty_periods * avg_reward_per_attestation. -/
def max_possible_rewards (data : List DutyRow) : ℚ :=
  (active_duty_periods data : ℚ) * avg_reward_per_attestation data

/-- corrected_performance = (net_rewards / max_possible_rewards * 100) if
max_possible_rewards > 0 else 0.0 — no further clamping. -/
def corrected_performance (data : List DutyRow) : ℚ :=
  if 0 < max_possible_rewards data then
    (net_rewards data : ℚ) / max_possible_rewards data * 100
  else 0

/-- attestation_success_rate, guarded on active_duty_periods > 0. -/
def attestation_success_rate (data : List DutyRow) : ℚ :=
  if 0 < active_duty_periods data then
    (successful_attestations data : ℚ) / (active_duty_periods data : ℚ) * 100
  else 0

/-- data_coverage, guarded on expected_total_epochs > 0. -/
def data_coverage (start_epoch end_epoch : ℤ) (data : List DutyRow) : ℚ :=
  if 0 < expected_total_epochs start_epoch end_epoch data then
    (total_data_points data : ℚ) /
      (expected_total_epochs start_epoch end_epoch data : ℚ) * 100
  else 0

/-- missing_data_points = expected_total_epochs - total_data_points. -/
def missing_data_points (start_epoch end_epoch : ℤ) (data : List DutyRow) : ℤ :=
  expected_total_epochs start_epoch end_epoch data - (total_data_points data : ℤ)

/-- Python round(x, n), with Mathlib's round standing in for float rounding. -/
def roundTo (n : ℕ) (q : ℚ) : ℚ := ((round (q * 10 ^ n) : ℤ) : ℚ) / 10 ^ n

/-- Result dictionary of calculate_corrected_theoretical_performance
(success path); the two display-only comparison fields against the
hard-coded 99.812 baseline are omitted. -/
structure CorrectedResult where
  operator : ℕ
  validator_count : ℕ
  epochs_analyzed : ℤ
  corrected_theoretical_performance : ℚ
  attestation_success_rate : ℚ
  data_coverage_percentage : ℚ
  active_duty_periods : ℕ
  successful_attestations : ℕ
  missed_attestations : ℕ
  pending_periods : ℕ
  missing_data_points : ℤ
  total_actual_rewards : ℕ
  total_penalties : ℕ
  net_rewards : ℤ
  max_possible_rewards : ℤ
  avg_reward_per_attestation : ℚ
  expected_total_epochs : ℤ
  total_data_points : ℕ
deriving DecidableEq, Repr

/-- calculate_corrected_theoretical_performance: none models the "No data
found for operator" error dictionary; otherwise the structured result is
assembled (int() truncation of the nonnegative max_possible_rewards is the
floor). -/
def calculate_corrected_theoretical_performance (rows : List DutyRow)
    (operator_name : ℕ) (start_epoch end_epoch : ℤ) : Option CorrectedResult :=
  let data := validator_data rows start_epoch end_epoch operator_name
  if data.isEmpty then none
  else some
    { operator := operator_name
      validator_count := validator_count data
      epochs_analyzed := epochs_in_period start_epoch end_epoch
      corrected_theoretical_performance := roundTo 3 (corrected_performance data)
      attestation_success_rate := roundTo 3 (attestation_success_rate data)
      data_coverage_percentage := roundTo 3 (data_coverage start_epoch end_epoch data)
      active_duty_periods := active_duty_periods data
      successful_attestations := successful_attestations data
      missed_attestations := missed_attestations data
      pending_periods := pending_periods data
      missing_data_points := missing_data_points start_epoch end_epoch data
      total_actual_rewards := total_actual_rewards data
      total_penalties := total_penalties data
      net_rewards := net_rewards data
      max_possible_rewards := ⌊max_possible_rewards data⌋
      avg_reward_per_attestation := roundTo 2 (avg_reward_per_attestation data)
      expected_total_epochs := expected_total_epochs start_epoch end_epoch data
      total_data_points := total_data_points data }

/-- Sample active row: successful attestation worth 10 gwei, no penalty. -/
def rowEarn : DutyRow :=
  { val_id := 1
    val_nos_name := some 0
    epoch := 0
    val_status := .active_ongoing
    att_happened := some true
    att_earned_reward := some 10
    att_missed_reward := some 0
    att_penalty := some 0
    is_proposer := false
    block_proposed := none
    propose_earned_reward := none
    is_sync := false
    sync_earned_reward := none
    sync_missed_reward := none }

/-- Sample active row: missed attestation with a 50 gwei penalty. -/
def rowPenalty : DutyRow :=
  { rowEarn with
    epoch := 1
    att_happened := some false
    att_earned_reward := some 0
    att_penalty := some 50 }

/-- C2: for every operator aggregate with max_possible_rewards > 0 the
corrected performance is (total_actual_rewards - total_penalties) /
max_possible_rewards * 100, with no lower clamp: when penalties exceed
actual rewards the percentage is strictly negative. -/
theorem C2_net_reward_no_floor (data : List DutyRow)
    (hmax : 0 < max_possible_rewards data) :
    corrected_performance data =
        (((total_actual_rewards data : ℤ) - (total_penalties data : ℤ) : ℤ) : ℚ) /
          max_possible_rewards data * 100
      ∧ (total_actual_rewards data < total_penalties data →
          corrected_performance data < 0) := by
  constructor
  · simp [corrected_performance, hmax, net_rewards]
  · intro hlt
    have hneg : ((net_rewards data : ℤ) : ℚ) < 0 := by
      have : net_rewards data < 0 := by
        unfold net_rewards; omega
      exact_mod_cast this
    have h1 : (net_rewards data : ℚ) / max_possible_rewards data < 0 :=
      div_neg_of_neg_of_pos hneg hmax
    have h2 : (net_rewards data : ℚ) / max_possible_rewards data * 100 < 0 := by
      nlinarith
    simpa [corrected_performance, hmax] using h2

/-- Witness for C2 at a concrete aggregate: one earning attestation and one
penalised miss give max_possible_rewards = 20 > 0 and a negative corrected
performance. -/
theorem C2_net_reward_no_floor_witness :
    0 < max_possible_rewards [rowEarn, rowPenalty] ∧
      corrected_performance [rowEarn, rowPenalty] < 0 := by
  have hmax : 0 < max_possible_rewards [rowEarn, rowPenalty] := by
    norm_num [max_possible_rewards, active_duty_periods, avg_reward_per_attestation,
      avg_reward_opt, avg_reward_rows, successful_attestation, is_active_duty,
      rowEarn, rowPenalty, List.filter, List.countP_cons, List.countP_nil]
  exact ⟨hmax, (C2_net_reward_no_floor [rowEarn, rowPenalty] hmax).2 (by decide)⟩

/-- Sample active row: successful attestation worth 100 gwei. -/
def rowHundred : DutyRow := { rowEarn with att_earned_reward := some 100 }

/-- Sample active row: successful attestation whose earned reward is zero. -/
def rowZero : DutyRow :=
  { rowEarn with epoch := 1, att_earned_reward := some 0 }

/-- Following the spec's words for the C3 denominator: the mean of
att_earned_reward over records where the attestation happened and the earned
reward is non-null and strictly positive. -/
def specAvgRewardPositive (data : List DutyRow) : ℚ :=
  (((data.filter fun r =>
        successful_attestation r && decide (0 < r.att_earned_reward.getD 0)).map
      fun r => r.att_earned_reward.getD 0).sum : ℚ) /
    (((data.filter fun r =>
        successful_attestation r && decide (0 < r.att_earned_reward.getD 0)).length : ℕ) : ℚ)

/-- Value of avg_reward_per_attestation when at least one row qualifies for
the SQL average: only an exactly zero mean is coalesced. -/
lemma avg_reward_eq_of_ne_nil (data : List DutyRow) (h : avg_reward_rows data ≠ []) :
    avg_reward_per_attestation data =
      if (((avg_reward_rows data).sum : ℚ) / ((avg_reward_rows data).length : ℚ)) = 0
      then 0
      else ((avg_reward_rows data).sum : ℚ) / ((avg_reward_rows data).length : ℚ) := by
  unfold avg_reward_per_attestation avg_reward_opt
  rw [if_neg h]

/-- Counterexample to C3: with one successful attestation earning 100 and one
earning 0, the code's denominator is active_duty_periods * 50 = 100, while the
claimed positive-only mean would give active_duty_periods * 100 = 200; the
zero-reward record is not excluded from the code's average. -/
theorem C3_denominator_counterexample :
    max_possible_rewards [rowHundred, rowZero] ≠
      (active_duty_periods [rowHundred, rowZero] : ℚ) *
        specAvgRewardPositive [rowHundred, rowZero] := by
  have hrows : avg_reward_rows [rowHundred, rowZero] = [100, 0] := by decide
  have hadp : active_duty_periods [rowHundred, rowZero] = 2 := by decide
  have havg : avg_reward_per_attestation [rowHundred, rowZero] = 50 := by
    rw [avg_reward_eq_of_ne_nil _ (by decide), hrows]
    norm_num
  have hspec : specAvgRewardPositive [rowHundred, rowZero] = 100 := by
    unfold specAvgRewardPositive
    norm_num [successful_attestation, is_active_duty, rowEarn, rowHundred, rowZero,
      List.filter]
  rw [max_possible_rewards, havg, hadp, hspec]
  norm_num

/-- C3 amended: the denominator max_possible_rewards equals
active_duty_periods times the mean of att_earned_reward over the records
where the attestation happened while the validator was active_ongoing and the
earned reward is non-null; zero-valued earned rewards stay in the mean (only
a null, or an exactly zero aggregate mean, is coalesced to 0.0 afterwards). -/
theorem C3_denominator_amended (data : List DutyRow)
    (h : avg_reward_rows data ≠ []) :
    max_possible_rewards data =
        (active_duty_periods data : ℚ) *
          (((avg_reward_rows data).sum : ℚ) / ((avg_reward_rows data).length : ℚ))
      ∧ ∀ r : DutyRow,
          (r ∈ data.filter fun s => successful_attestation s && s.att_earned_reward.isSome) ↔
            (r ∈ data ∧ r.val_status = ValStatus.active_ongoing ∧
              r.att_happened = some true ∧ r.att_earned_reward ≠ none) := by
  constructor
  · rw [max_possible_rewards, avg_reward_eq_of_ne_nil data h]
    by_cases h0 :
        ((avg_reward_rows data).sum : ℚ) / ((avg_reward_rows data).length : ℚ) = 0
    · rw [if_pos h0, h0]
    · rw [if_neg h0]
  · intro r
    simp [List.mem_filter, successful_attestation, is_active_duty,
      Option.isSome_iff_ne_none, and_assoc]

/-- Witness for C3's amended statement at a singleton aggregate. -/
theorem C3_denominator_amended_witness :
    avg_reward_rows [rowEarn] ≠ [] ∧
      max_possible_rewards [rowEarn] =
        (active_duty_periods [rowEarn] : ℚ) *
          (((avg_reward_rows [rowEarn]).sum : ℚ) /
            ((avg_reward_rows [rowEarn]).length : ℚ)) :=
  ⟨by decide, (C3_denominator_amended [rowEarn] (by decide)).1⟩

/-- C10: when no record of the window is a successful attestation with a
non-null earned reward — or the aggregate mean is exactly zero — the Python
truthiness coalesce makes avg_reward_per_attestation 0.0, hence
max_possible_rewards is 0 and the corrected performance is reported as 0.0,
regardless of active_duty_periods and net_rewards; the structured result with
its raw counts is still returned rather than an error. -/
theorem C10_zero_average_coalesces (rows : List DutyRow) (operator_name : ℕ)
    (start_epoch end_epoch : ℤ)
    (havg :
      avg_reward_opt (validator_data rows start_epoch end_epoch operator_name) = none ∨
        avg_reward_opt (validator_data rows start_epoch end_epoch operator_name) = some 0)
    (hne : validator_data rows start_epoch end_epoch operator_name ≠ []) :
    avg_reward_per_attestation (validator_data rows start_epoch end_epoch operator_name) = 0
    ∧ max_possible_rewards (validator_data rows start_epoch end_epoch operator_name) = 0
    ∧ corrected_performance (validator_data rows start_epoch end_epoch operator_name) = 0
    ∧ ∃ res : CorrectedResult,
        calculate_corrected_theoretical_performance rows operator_name start_epoch end_epoch
            = some res
        ∧ res.corrected_theoretical_performance = 0
        ∧ res.active_duty_periods =
            active_duty_periods (validator_data rows start_epoch end_epoch operator_name)
        ∧ res.net_rewards =
            net_rewards (validator_data rows start_epoch end_epoch operator_name)
        ∧ res.total_data_points =
            total_data_points (validator_data rows start_epoch end_epoch operator_name)
        ∧ res.missed_attestations =
            missed_attestations (validator_data rows start_epoch end_epoch operator_name) := by
  have h1 : avg_reward_per_attestation
      (validator_data rows start_epoch end_epoch operator_name) = 0 := by
    rcases havg with h | h <;> simp [avg_reward_per_attestation, h]
  have h2 : max_possible_rewards
      (validator_data rows start_epoch end_epoch operator_name) = 0 := by
    simp [max_possible_rewards, h1]
  have h3 : corrected_performance
      (validator_data rows start_epoch end_epoch operator_name) = 0 := by
    simp [corrected_performance, h2]
  have hempty : ¬ ((validator_data rows start_epoch end_epoch operator_name).isEmpty = true) := by
    simpa [List.isEmpty_iff] using hne
  have hcalc :
      ∃ res : CorrectedResult,
        calculate_corrected_theoretical_performance rows operator_name start_epoch end_epoch
            = some res
        ∧ res.corrected_theoretical_performance =
            roundTo 3 (corrected_performance
              (validator_data rows start_epoch end_epoch operator_name))
        ∧ res.active_duty_periods =
            active_duty_periods (validator_data rows start_epoch end_epoch operator_name)
        ∧ res.net_rewards =
            net_rewards (validator_data rows start_epoch end_epoch operator_name)
        ∧ res.total_data_points =
            total_data_points (validator_data rows start_epoch end_epoch operator_name)
        ∧ res.missed_attestations =
            missed_attestations (validator_data rows start_epoch end_epoch operator_name) := by
    simp only [calculate_corrected_theoretical_performance]
    rw [if_neg hempty]
    exact ⟨_, rfl, rfl, rfl, rfl, rfl, rfl⟩
  obtain ⟨res, hr, hf, h4, h5, h6, h7⟩ := hcalc
  refine ⟨h1, h2, h3, res, hr, ?_, h4, h5, h6, h7⟩
  rw [hf, h3]
  simp [roundTo]

/-- Sample active row for operator 7: missed attestation, null earned reward,
5 gwei penalty. -/
def rowMissPen : DutyRow :=
  { rowEarn with
    val_nos_name := some 7
    att_happened := some false
    att_earned_reward := none
    att_penalty := some 5 }

/-- Witness for C10: a window with one active missed attestation has a
positive active_duty_periods count, nonzero (negative) net rewards, and a
corrected performance coalesced to 0. -/
theorem C10_zero_average_coalesces_witness :
    0 < active_duty_periods (validator_data [rowMissPen] 0 0 7)
    ∧ net_rewards (validator_data [rowMissPen] 0 0 7) ≠ 0
    ∧ corrected_performance (validator_data [rowMissPen] 0 0 7) = 0 :=
  ⟨by decide, by decide,
    (C10_zero_average_coalesces [rowMissPen] 7 0 0 (Or.inl (by decide)) (by decide)).2.2.1⟩

/-- Membership in the filtered validator_data window, spelled out. -/
lemma mem_validator_data {rows : List DutyRow} {s e : ℤ} {op : ℕ} {r : DutyRow} :
    r ∈ validator_data rows s e op ↔
      r ∈ rows ∧ s ≤ r.epoch ∧ r.epoch ≤ e ∧ r.val_nos_name = some op ∧
        r.val_status.isTerminal = false := by
  simp [validator_data, List.mem_filter, and_assoc]

/-- C9: over duty records with at most one row per (validator, epoch), the
aggregate satisfies total_data_points <= expected_total_epochs, and
missing_data_points = expected_total_epochs - total_data_points >= 0. -/
theorem C9_coverage_identity (rows : List DutyRow) (start_epoch end_epoch : ℤ)
    (operator_name : ℕ)
    (huniq : rows.Pairwise fun r s => r.val_id = s.val_id → r.epoch ≠ s.epoch) :
    (total_data_points (validator_data rows start_epoch end_epoch operator_name) : ℤ)
        ≤ expected_total_epochs start_epoch end_epoch
            (validator_data rows start_epoch end_epoch operator_name)
    ∧ missing_data_points start_epoch end_epoch
          (validator_data rows start_epoch end_epoch operator_name)
        = expected_total_epochs start_epoch end_epoch
              (validator_data rows start_epoch end_epoch operator_name)
          - (total_data_points (validator_data rows start_epoch end_epoch operator_name) : ℤ)
    ∧ 0 ≤ missing_data_points start_epoch end_epoch
            (validator_data rows start_epoch end_epoch operator_name) := by
  set d := validator_data rows start_epoch end_epoch operator_name with hd
  by_cases hempty : d = []
  · simp [hempty, total_data_points, expected_total_epochs, validator_count,
      missing_data_points, epochs_in_period]
  · have hpw : d.Pairwise (fun r s => r.val_id = s.val_id → r.epoch ≠ s.epoch) :=
      List.Pairwise.sublist (List.filter_sublist rows) huniq
    obtain ⟨r0, hr0⟩ := List.exists_mem_of_ne_nil d hempty
    have hr0m := mem_validator_data.mp (hd ▸ hr0)
    have hse : start_epoch ≤ end_epoch := le_trans hr0m.2.1 hr0m.2.2.1
    have hkeys : (d.map fun r => (r.val_id, r.epoch)).Nodup := by
      refine List.Pairwise.map _ ?_ hpw
      intro a b hab heq
      rw [Prod.mk.injEq] at heq
      exact hab heq.1 heq.2
    have hcard1 : d.length = (d.map fun r => (r.val_id, r.epoch)).toFinset.card := by
      rw [List.toFinset_card_of_nodup hkeys, List.length_map]
    have hsubset : (d.map fun r => (r.val_id, r.epoch)).toFinset ⊆
        ((d.map (·.val_id)).toFinset) ×ˢ (Finset.Icc start_epoch end_epoch) := by
      intro x hx
      rw [List.mem_toFinset, List.mem_map] at hx
      obtain ⟨r, hrd, rfl⟩ := hx
      have hm := mem_validator_data.mp (hd ▸ hrd)
      refine Finset.mem_product.mpr ⟨?_, ?_⟩
      · rw [List.mem_toFinset, List.mem_map]
        exact ⟨r, hrd, rfl⟩
      · exact Finset.mem_Icc.mpr ⟨hm.2.1, hm.2.2.1⟩
    have hcard2 : (d.map fun r => (r.val_id, r.epoch)).toFinset.card ≤
        (d.map (·.val_id)).toFinset.card * (Finset.Icc start_epoch end_epoch).card := by
      calc (d.map fun r => (r.val_id, r.epoch)).toFinset.card
          ≤ (((d.map (·.val_id)).toFinset) ×ˢ (Finset.Icc start_epoch end_epoch)).card :=
            Finset.card_le_card hsubset
        _ = (d.map (·.val_id)).toFinset.card * (Finset.Icc start_epoch end_epoch).card :=
            Finset.card_product _ _
    have hvc : (d.map (·.val_id)).toFinset.card = validator_count d := by
      rw [List.card_toFinset]
      rfl
    have hIcc : ((Finset.Icc start_epoch end_epoch).card : ℤ)
        = end_epoch - start_epoch + 1 := by
      rw [Int.card_Icc, Int.toNat_of_nonneg (by omega)]
      ring
    have hmain : (d.length : ℤ) ≤ (validator_count d : ℤ) *
        (end_epoch - start_epoch + 1) := by
      have hN : d.length ≤ validator_count d * (Finset.Icc start_epoch end_epoch).card := by
        rw [hcard1, ← hvc]
        exact hcard2
      calc (d.length : ℤ)
          ≤ ((validator_count d * (Finset.Icc start_epoch end_epoch).card : ℕ) : ℤ) := by
            exact_mod_cast hN
        _ = (validator_count d : ℤ) * ((Finset.Icc start_epoch end_epoch).card : ℤ) := by
            push_cast
            ring
        _ = (validator_count d : ℤ) * (end_epoch - start_epoch + 1) := by rw [hIcc]
    have hle : (total_data_points d : ℤ) ≤ expected_total_epochs start_epoch end_epoch d := by
      simpa [total_data_points, expected_total_epochs, epochs_in_period] using hmain
    exact ⟨hle, rfl, by simpa [missing_data_points] using hle⟩

/-- Witness for C9 at a two-epoch window containing the sample rows. -/
theorem C9_coverage_identity_witness :
    0 ≤ missing_data_points 0 1 (validator_data [rowEarn, rowPenalty] 0 1 0) :=
  (C9_coverage_identity [rowEarn, rowPenalty] 0 1 0 (by decide)).2.2

/-- start_epoch = latest_epoch - epochs_back + 1 in
get_validators_down_extended. -/
def down_start_epoch (epochs_back : ℕ) (latest_epoch : ℤ) : ℤ :=
  latest_epoch - (epochs_back : ℤ) + 1

/-- CASE WHEN att_happened = 0 OR att_happened IS NULL THEN 1 ELSE 0: the
detector's miss classification of a single record. -/
def detectorMiss (h : Option Bool) : Bool :=
  match h with
  | some true => false
  | _ => true

/-- validator_epochs CTE: rows inside the window with a non-null operator. -/
def validator_epochs (rows : List DutyRow) (epochs_back : ℕ)
    (latest_epoch : ℤ) : List DutyRow :=
  rows.filter fun r =>
    decide (down_start_epoch epochs_back latest_epoch ≤ r.epoch) &&
      decide (r.epoch ≤ latest_epoch) && r.val_nos_name.isSome

/-- active_validators CTE: the validator has a latest-epoch record whose
status is not in the excluded terminal set. -/
def isActiveValidator (rows : List DutyRow) (epochs_back : ℕ)
    (latest_epoch : ℤ) (i : ℕ) : Bool :=
  (validator_epochs rows epochs_back latest_epoch).any fun r =>
    decide (r.val_id = i) && decide (r.epoch = latest_epoch) && !r.val_status.isTerminal

/-- Rows of one (val_id, val_nos_name) group of the consecutive_misses CTE. -/
def missGroup (rows : List DutyRow) (epochs_back : ℕ) (latest_epoch : ℤ)
    (i : ℕ) (op : Option ℕ) : List DutyRow :=
  (validator_epochs rows epochs_back latest_epoch).filter fun r =>
    decide (r.val_id = i) && decide (r.val_nos_name = op)

/-- HAVING COUNT(*) = epochs_back AND SUM(missed_attestation) = epochs_back,
joined against active_validators: whether the group is reported down. -/
def flaggedDown (rows : List DutyRow) (epochs_back : ℕ) (latest_epoch : ℤ)
    (i : ℕ) (op : Option ℕ) : Bool :=
  isActiveValidator rows epochs_back latest_epoch i
    && ((missGroup rows epochs_back latest_epoch i op).length == epochs_back)
    && ((missGroup rows epochs_back latest_epoch i op).countP
          (fun r => detectorMiss r.att_happened) == epochs_back)

/-- Duty records of validator i inside the epochs_back most-recent-epoch
window (the claim-side notion of the validator's in-window records). -/
def windowRecords (rows : List DutyRow) (epochs_back : ℕ) (latest_epoch : ℤ)
    (i : ℕ) : List DutyRow :=
  rows.filter fun r =>
    decide (r.val_id = i) &&
      decide (down_start_epoch epochs_back latest_epoch ≤ r.epoch) &&
      decide (r.epoch ≤ latest_epoch)

/-- C6: for a record of an active_ongoing validator, a null att_happened is
classified exactly as att_happened = false: the aggregator's missed flag and
count, and the detector's miss classification, agree on the two inputs. -/
theorem C6_null_as_miss (r : DutyRow) (xs ys : List DutyRow)
    (hact : r.val_status = ValStatus.active_ongoing) :
    missed_attestation { r with att_happened := none }
        = missed_attestation { r with att_happened := some false }
    ∧ missed_attestations (xs ++ { r with att_happened := none } :: ys)
        = missed_attestations (xs ++ { r with att_happened := some false } :: ys)
    ∧ detectorMiss ({ r with att_happened := none }).att_happened
        = detectorMiss ({ r with att_happened := some false }).att_happened := by
  refine ⟨?_, ?_, rfl⟩
  · simp [missed_attestation, is_active_duty]
  · simp [missed_attestations, List.countP_append, List.countP_cons,
      missed_attestation, is_active_duty]

/-- Witness for C6 at the sample active row. -/
theorem C6_null_as_miss_witness :
    rowEarn.val_status = ValStatus.active_ongoing ∧
      missed_attestations [{ rowEarn with att_happened := none }]
        = missed_attestations [{ rowEarn with att_happened := some false }] := by
  refine ⟨rfl, ?_⟩
  have h := (C6_null_as_miss rowEarn [] [] rfl).2.1
  simpa using h

/-- Membership in the detector's window filter of a single validator. -/
lemma mem_windowRecords {rows : List DutyRow} {K : ℕ} {latest : ℤ} {i : ℕ}
    {r : DutyRow} :
    r ∈ windowRecords rows K latest i ↔
      r ∈ rows ∧ r.val_id = i ∧ down_start_epoch K latest ≤ r.epoch ∧
        r.epoch ≤ latest := by
  simp [windowRecords, List.mem_filter, and_assoc]

/-- Membership in the validator_epochs CTE. -/
lemma mem_validator_epochs {rows : List DutyRow} {K : ℕ} {latest : ℤ}
    {r : DutyRow} :
    r ∈ validator_epochs rows K latest ↔
      r ∈ rows ∧ down_start_epoch K latest ≤ r.epoch ∧ r.epoch ≤ latest ∧
        r.val_nos_name.isSome = true := by
  simp [validator_epochs, List.mem_filter, and_assoc]

/-- When all of validator i's rows carry operator op, the SQL group of
(i, op) is exactly i's in-window record list. -/
lemma missGroup_eq_windowRecords (rows : List DutyRow) (K : ℕ) (latest : ℤ)
    (i op : ℕ)
    (hop : ∀ r ∈ rows, r.val_id = i → r.val_nos_name = some op) :
    missGroup rows K latest i (some op) = windowRecords rows K latest i := by
  unfold missGroup validator_epochs windowRecords
  rw [List.filter_filter]
  apply List.filter_congr
  intro r hr
  by_cases hid : r.val_id = i
  · have hnos := hop r hr hid
    simp [hid, hnos]
  · simp [hid]

/-- C5: the detector flags validator i down iff it has exactly K duty records
in the K most-recent-epoch window, all K classified miss, and its status in
the latest epoch is not terminal; in particular a window containing a hit is
never flagged, and a window with only K-1 records is never flagged.  The
hypotheses record the data-model invariants: at most one record per
(validator, epoch) and a fixed operator per validator. -/
theorem C5_consecutive_miss_detector (rows : List DutyRow) (K : ℕ) (latest : ℤ)
    (i op : ℕ)
    (hK : 2 ≤ K)
    (huniq : rows.Pairwise fun r s => r.val_id = s.val_id → r.epoch ≠ s.epoch)
    (hop : ∀ r ∈ rows, r.val_id = i → r.val_nos_name = some op) :
    (flaggedDown rows K latest i (some op) = true ↔
        ((windowRecords rows K latest i).length = K
          ∧ (∀ r ∈ windowRecords rows K latest i, detectorMiss r.att_happened = true)
          ∧ (∀ r ∈ rows, r.val_id = i → r.epoch = latest →
              r.val_status.isTerminal = false)))
    ∧ ((∃ r ∈ windowRecords rows K latest i, r.att_happened = some true) →
        flaggedDown rows K latest i (some op) = false)
    ∧ ((windowRecords rows K latest i).length = K - 1 →
        flaggedDown rows K latest i (some op) = false) := by
  have hMG := missGroup_eq_windowRecords rows K latest i op hop
  have hkey : ∀ r ∈ rows, ∀ s ∈ rows, r.val_id = s.val_id → r.epoch = s.epoch → r = s := by
    have hsymm : Symmetric fun r s : DutyRow => r.val_id = s.val_id → r.epoch ≠ s.epoch := by
      intro a b hab hid2 hep2
      exact hab hid2.symm hep2.symm
    intro r hr s hs hid hep
    by_contra hne
    exact (List.Pairwise.forall hsymm huniq hr hs hne) hid hep
  have hcover : (windowRecords rows K latest i).length = K →
      ∃ r ∈ windowRecords rows K latest i, r.epoch = latest := by
    intro hlen
    have hpw : (windowRecords rows K latest i).Pairwise
        (fun r s => r.val_id = s.val_id → r.epoch ≠ s.epoch) :=
      List.Pairwise.sublist (List.filter_sublist rows) huniq
    have hval : ∀ r ∈ windowRecords rows K latest i, r.val_id = i := fun r hr =>
      (mem_windowRecords.mp hr).2.1
    have hpw2 : (windowRecords rows K latest i).Pairwise fun r s => r.epoch ≠ s.epoch := by
      refine List.Pairwise.imp_of_mem ?_ hpw
      intro a b ha hb hab
      exact hab (by rw [hval a ha, hval b hb])
    have hnodup : ((windowRecords rows K latest i).map (·.epoch)).Nodup :=
      List.Pairwise.map _ (fun a b h => h) hpw2
    have hsubset : ((windowRecords rows K latest i).map (·.epoch)).toFinset ⊆
        Finset.Icc (down_start_epoch K latest) latest := by
      intro x hx
      rw [List.mem_toFinset, List.mem_map] at hx
      obtain ⟨r, hr, rfl⟩ := hx
      have hm := mem_windowRecords.mp hr
      exact Finset.mem_Icc.mpr ⟨hm.2.2.1, hm.2.2.2⟩
    have hcardIcc : (Finset.Icc (down_start_epoch K latest) latest).card = K := by
      rw [Int.card_Icc]
      unfold down_start_epoch
      have harith : latest + 1 - (latest - (K : ℤ) + 1) = (K : ℤ) := by ring
      rw [harith]
      omega
    have hcardE : ((windowRecords rows K latest i).map (·.epoch)).toFinset.card = K := by
      rw [List.toFinset_card_of_nodup hnodup, List.length_map, hlen]
    have hEq : ((windowRecords rows K latest i).map (·.epoch)).toFinset =
        Finset.Icc (down_start_epoch K latest) latest :=
      Finset.eq_of_subset_of_card_le hsubset (by rw [hcardIcc, hcardE])
    have hlat : latest ∈ ((windowRecords rows K latest i).map (·.epoch)).toFinset := by
      rw [hEq]
      refine Finset.mem_Icc.mpr ⟨?_, le_refl _⟩
      unfold down_start_epoch
      omega
    rw [List.mem_toFinset, List.mem_map] at hlat
    obtain ⟨r, hr, hre⟩ := hlat
    exact ⟨r, hr, hre⟩
  have hflag : flaggedDown rows K latest i (some op) = true ↔
      (isActiveValidator rows K latest i = true
        ∧ (windowRecords rows K latest i).length = K
        ∧ (windowRecords rows K latest i).countP
            (fun r => detectorMiss r.att_happened) = K) := by
    simp [flaggedDown, hMG, and_assoc]
  have hiff : flaggedDown rows K latest i (some op) = true ↔
      ((windowRecords rows K latest i).length = K
        ∧ (∀ r ∈ windowRecords rows K latest i, detectorMiss r.att_happened = true)
        ∧ (∀ r ∈ rows, r.val_id = i → r.epoch = latest →
            r.val_status.isTerminal = false)) := by
    rw [hflag]
    constructor
    · rintro ⟨hact, hlen, hcnt⟩
      refine ⟨hlen, ?_, ?_⟩
      · intro r hr
        have hcl : (windowRecords rows K latest i).countP
            (fun r => detectorMiss r.att_happened)
            = (windowRecords rows K latest i).length := by
          rw [hcnt, hlen]
        exact List.countP_eq_length.mp hcl r hr
      · obtain ⟨r0, hr0, hcond⟩ := List.any_eq_true.mp hact
        simp only [Bool.and_eq_true, decide_eq_true_eq, Bool.not_eq_true'] at hcond
        obtain ⟨⟨h1, h2⟩, h3⟩ := hcond
        have hr0rows : r0 ∈ rows := (mem_validator_epochs.mp hr0).1
        intro r hr hid hep
        have heq := hkey r hr r0 hr0rows (by rw [hid, h1]) (by rw [hep, h2])
        rw [heq]
        exact h3
    · rintro ⟨hlen, hmiss, hterm⟩
      obtain ⟨r0, hr0, hre⟩ := hcover hlen
      have hm := mem_windowRecords.mp hr0
      have hnos := hop r0 hm.1 hm.2.1
      refine ⟨?_, hlen, ?_⟩
      · apply List.any_eq_true.mpr
        refine ⟨r0, mem_validator_epochs.mpr ⟨hm.1, hm.2.2.1, hm.2.2.2, by
          rw [hnos]
          rfl⟩, ?_⟩
        simp [hm.2.1, hre, hterm r0 hm.1 hm.2.1 hre]
      · rw [List.countP_eq_length.mpr hmiss, hlen]
  refine ⟨hiff, ?_, ?_⟩
  · rintro ⟨r, hr, hap⟩
    cases hF : flaggedDown rows K latest i (some op)
    · rfl
    · exfalso
      obtain ⟨-, hmiss, -⟩ := hiff.mp hF
      have hd := hmiss r hr
      rw [hap] at hd
      simp [detectorMiss] at hd
  · intro hlen1
    cases hF : flaggedDown rows K latest i (some op)
    · rfl
    · exfalso
      obtain ⟨hlen, -, -⟩ := hiff.mp hF
      omega

/-- Sample down-detector row: validator 5 of operator 3, active, missed. -/
def downRow1 : DutyRow :=
  { rowEarn with
    val_id := 5
    val_nos_name := some 3
    epoch := 10
    att_happened := some false }

/-- Sample down-detector row: the preceding epoch with a null attestation. -/
def downRow2 : DutyRow := { downRow1 with epoch := 9, att_happened := none }

/-- Witness for C5: two consecutive misses (one of them null) with K = 2 flag
the validator down. -/
theorem C5_consecutive_miss_detector_witness :
    flaggedDown [downRow1, downRow2] 2 10 5 (some 3) = true :=
  ((C5_consecutive_miss_detector [downRow1, downRow2] 2 10 5 3 (by norm_num)
      (by decide) (by decide)).1).mpr ⟨by decide, by decide, by decide⟩

/-- Policy of an endpoint facing a window that precedes the earliest stored
epoch: strict endpoints (get_theoretical_performance_extended,
get_below_threshold) return a structured insufficient-data dictionary,
clamp endpoints (get_below_threshold_extended,
get_theoretical_performance_all_extended) shrink the window silently. -/
inductive WindowPolicy where
  | clamp
  | strict
deriving DecidableEq, Repr

/-- Fields of the insufficient-data dictionary returned by the strict policy
(lines 1036-1047 of routers/nodeset.py). -/
structure InsufficientData where
  epochs_requested : ℤ
  epochs_available : ℤ
  days_requested : ℕ
  latest_epoch : ℤ
  min_available_epoch : ℤ
  requested_start_epoch : ℤ
  data_completeness_percentage : ℚ
deriving DecidableEq, Repr

/-- Resolved epoch window actually used by a query. -/
structure EpochWindow where
  start_epoch : ℤ
  epochs_count : ℤ
deriving DecidableEq, Repr

/-- Epoch window resolution of the extended endpoints: total_epochs =
days * 225, start_epoch = latest_epoch - total_epochs + 1; when start_epoch <
min_available_epoch the strict policy aborts with the insufficient-data
record while the clamp policy proceeds from min_available_epoch with the
count reduced to the available epochs. -/
def resolveExtendedWindow (policy : WindowPolicy) (days : ℕ)
    (latest_epoch min_available_epoch : ℤ) : EpochWindow ⊕ InsufficientData :=
  let total_epochs : ℤ := (days : ℤ) * 225
  let start_epoch : ℤ := latest_epoch - total_epochs + 1
  if start_epoch < min_available_epoch then
    let epochs_available : ℤ := latest_epoch - min_available_epoch + 1
    match policy with
    | .strict =>
        Sum.inr
          { epochs_requested := total_epochs
            epochs_available := epochs_available
            days_requested := days
            latest_epoch := latest_epoch
            min_available_epoch := min_available_epoch
            requested_start_epoch := start_epoch
            data_completeness_percentage :=
              roundTo 2 ((epochs_available : ℚ) / (total_epochs : ℚ) * 100) }
    | .clamp =>
        Sum.inl { start_epoch := min_available_epoch, epochs_count := epochs_available }
  else Sum.inl { start_epoch := start_epoch, epochs_count := total_epochs }

/-- C4: when the requested window of days*225 epochs reaches before the
earliest available epoch, the strict policy returns the structured
insufficient-data result with epochs_requested = days*225, epochs_available =
latest - min_available + 1 and completeness = round(avail/req*100, 2), while
the clamp policy proceeds from min_available_epoch with the count reduced to
the available epochs. -/
theorem C4_window_insufficiency_policies (days : ℕ)
    (latest_epoch min_available_epoch : ℤ)
    (h : latest_epoch - (days : ℤ) * 225 + 1 < min_available_epoch) :
    resolveExtendedWindow .strict days latest_epoch min_available_epoch =
        Sum.inr
          { epochs_requested := (days : ℤ) * 225
            epochs_available := latest_epoch - min_available_epoch + 1
            days_requested := days
            latest_epoch := latest_epoch
            min_available_epoch := min_available_epoch
            requested_start_epoch := latest_epoch - (days : ℤ) * 225 + 1
            data_completeness_percentage :=
              roundTo 2 (((latest_epoch - min_available_epoch + 1 : ℤ) : ℚ) /
                (((days : ℤ) * 225 : ℤ) : ℚ) * 100) }
      ∧ resolveExtendedWindow .clamp days latest_epoch min_available_epoch =
        Sum.inl
          { start_epoch := min_available_epoch
            epochs_count := latest_epoch - min_available_epoch + 1 } := by
  constructor
  · simp only [resolveExtendedWindow]
    rw [if_pos h]
  · simp only [resolveExtendedWindow]
    rw [if_pos h]

/-- Witness for C4: a 7-day request (1575 epochs) against 500 available
epochs yields the spec's 31.75 completeness under strict and a clamped
500-epoch window under clamp. -/
theorem C4_window_insufficiency_policies_witness :
    resolveExtendedWindow .strict 7 2000 1501 =
        Sum.inr
          { epochs_requested := 1575
            epochs_available := 500
            days_requested := 7
            latest_epoch := 2000
            min_available_epoch := 1501
            requested_start_epoch := 426
            data_completeness_percentage := 127 / 4 }
      ∧ resolveExtendedWindow .clamp 7 2000 1501 =
        Sum.inl { start_epoch := 1501, epochs_count := 500 } := by
  have h := C4_window_insufficiency_policies 7 2000 1501 (by norm_num)
  refine ⟨?_, ?_⟩
  · rw [h.1]
    simp only [Sum.inr.injEq, InsufficientData.mk.injEq]
    refine ⟨by norm_num, by norm_num, trivial, trivial, trivial, by norm_num, ?_⟩
    rw [roundTo, round_eq]
    have hx : ((2000 - 1501 + 1 : ℤ) : ℚ) / ((((7 : ℕ) : ℤ) * 225 : ℤ) : ℚ) * 100 * 10 ^ 2
        + 1 / 2 = 400063 / 126 := by
      norm_num
    rw [hx]
    have hf : ⌊(400063 : ℚ) / 126⌋ = 3175 := by
      rw [Int.floor_eq_iff]
      constructor
      · norm_num
      · norm_num
    rw [hf]
    norm_num
  · rw [h.2]
    simp only [Sum.inl.injEq, EpochWindow.mk.injEq]
    constructor
    · norm_num
    · norm_num

/-- Python sum(ps) / len(ps). -/
def avgPerf (ps : List ℚ) : ℚ := ps.sum / (ps.length : ℚ)

/-- operator_performance map of _calculate_attestation_only_performance: an
operator with regular performances gets their average, one without gets 0. -/
def operatorPerformance (d : List (List ℚ)) : List ℚ :=
  d.map fun ps => if 0 < ps.length then avgPerf ps else 0

/-- operator_averages list: only the operators with at least one regular
performance contribute their average. -/
def operatorAverages (d : List (List ℚ)) : List ℚ :=
  (d.filter fun ps => decide (0 < ps.length)).map avgPerf

/-- Python max(xs) on a nonempty list as a left fold. -/
def listMax : List ℚ → ℚ
  | [] => 0
  | h :: t => t.foldl max h

/-- highest_performance = max(operator_averages) if operator_averages else 1. -/
def highestPerformance (d : List (List ℚ)) : ℚ :=
  match operatorAverages d with
  | [] => 1
  | h :: t => t.foldl max h

/-- relative score (performance / highest_performance) * 100 when the
highest performance is positive, else 0. -/
def relativeScore (d : List (List ℚ)) (p : ℚ) : ℚ :=
  if 0 < highestPerformance d then p / highestPerformance d * 100 else 0

/-- A left fold by max dominates anything below its seed. -/
lemma foldl_max_le_init (t : List ℚ) :
    ∀ a b : ℚ, a ≤ b → a ≤ t.foldl max b := by
  induction t with
  | nil => intro a b h; simpa using h
  | cons x xs ih => intro a b h; exact ih a (max b x) (le_trans h (le_max_left b x))

/-- Every listed value, and the seed, is at most the max fold. -/
lemma le_foldl_max (t : List ℚ) :
    ∀ b x : ℚ, x = b ∨ x ∈ t → x ≤ t.foldl max b := by
  induction t with
  | nil =>
      rintro b x (rfl | hx)
      · simp
      · simp at hx
  | cons y ys ih =>
      rintro b x (rfl | hx)
      · exact foldl_max_le_init ys x (max x y) (le_max_left x y)
      · rcases List.mem_cons.mp hx with rfl | hx2
        · exact foldl_max_le_init ys x (max b x) (le_max_right b x)
        · exact ih (max b y) x (Or.inr hx2)

/-- The max fold is the seed or one of the listed values. -/
lemma foldl_max_mem (t : List ℚ) :
    ∀ b : ℚ, t.foldl max b = b ∨ t.foldl max b ∈ t := by
  induction t with
  | nil => intro b; left; rfl
  | cons y ys ih =>
      intro b
      rcases ih (max b y) with h | h
      · rcases max_choice b y with hm | hm
        · left
          rw [List.foldl_cons, h, hm]
        · right
          rw [List.foldl_cons, h, hm]
          exact List.mem_cons_self y ys
      · right
        exact List.mem_cons_of_mem y h

/-- listMax of a nonempty list is one of its members. -/
lemma listMax_mem (xs : List ℚ) (h : xs ≠ []) : listMax xs ∈ xs := by
  cases xs with
  | nil => exact absurd rfl h
  | cons a t =>
      rcases foldl_max_mem t a with h1 | h1
      · show t.foldl max a ∈ a :: t
        rw [h1]
        exact List.mem_cons_self a t
      · exact List.mem_cons_of_mem a h1

/-- listMax dominates every member. -/
lemma le_listMax (xs : List ℚ) (x : ℚ) (h : x ∈ xs) : x ≤ listMax xs := by
  cases xs with
  | nil => simp at h
  | cons a t =>
      show x ≤ t.foldl max a
      rcases List.mem_cons.mp h with rfl | hx
      · exact le_foldl_max t x x (Or.inl rfl)
      · exact le_foldl_max t a x (Or.inr hx)

/-- C7: over a nonempty operator set with positive performances and a positive
maximum, every relative score equals performance divided by the maximum times
100, the maximum performer scores exactly 100, and all scores lie in
[0, 100]. -/
theorem C7_relative_score_identity (d : List (List ℚ))
    (hne : d ≠ [])
    (hpos : ∀ ps ∈ d, ∀ x ∈ ps, 0 < x)
    (hmax : 0 < listMax (operatorPerformance d)) :
    (∀ p ∈ operatorPerformance d,
        relativeScore d p = p / listMax (operatorPerformance d) * 100)
    ∧ relativeScore d (listMax (operatorPerformance d)) = 100
    ∧ ∀ p ∈ operatorPerformance d,
        0 ≤ relativeScore d p ∧ relativeScore d p ≤ 100 := by
  have hPne : operatorPerformance d ≠ [] := by
    cases d with
    | nil => exact absurd rfl hne
    | cons a t => simp [operatorPerformance]
  have hMP : listMax (operatorPerformance d) ∈ operatorPerformance d :=
    listMax_mem _ hPne
  have hPA : ∀ p ∈ operatorPerformance d, p = 0 ∨ p ∈ operatorAverages d := by
    intro p hp
    rw [operatorPerformance, List.mem_map] at hp
    obtain ⟨ps, hps, rfl⟩ := hp
    by_cases hl : 0 < ps.length
    · right
      rw [if_pos hl]
      rw [operatorAverages, List.mem_map]
      exact ⟨ps, List.mem_filter.mpr ⟨hps, by simpa using hl⟩, rfl⟩
    · left
      rw [if_neg hl]
  have hAP : ∀ a ∈ operatorAverages d, a ∈ operatorPerformance d := by
    intro a ha
    rw [operatorAverages, List.mem_map] at ha
    obtain ⟨ps, hps, rfl⟩ := ha
    have hmem := List.mem_filter.mp hps
    have hl : 0 < ps.length := by simpa using hmem.2
    rw [operatorPerformance, List.mem_map]
    exact ⟨ps, hmem.1, by rw [if_pos hl]⟩
  have hMA : listMax (operatorPerformance d) ∈ operatorAverages d := by
    rcases hPA _ hMP with h0 | h
    · rw [h0] at hmax
      exact absurd hmax (lt_irrefl 0)
    · exact h
  have hAne : operatorAverages d ≠ [] := List.ne_nil_of_mem hMA
  have hHA : highestPerformance d = listMax (operatorAverages d) := by
    cases hA : operatorAverages d with
    | nil => exact absurd hA hAne
    | cons a t => simp [highestPerformance, listMax, hA]
  have hALM : listMax (operatorAverages d) = listMax (operatorPerformance d) := by
    apply le_antisymm
    · exact le_listMax _ _ (hAP _ (listMax_mem _ hAne))
    · exact le_listMax _ _ hMA
  have hH : highestPerformance d = listMax (operatorPerformance d) := hHA.trans hALM
  have hMne : listMax (operatorPerformance d) ≠ 0 := ne_of_gt hmax
  refine ⟨?_, ?_, ?_⟩
  · intro p hp
    rw [relativeScore, hH, if_pos hmax]
  · rw [relativeScore, hH, if_pos hmax, div_self hMne]
    norm_num
  · intro p hp
    have hp0 : 0 ≤ p := by
      rcases hPA p hp with h0 | hA2
      · rw [h0]
      · rw [operatorAverages, List.mem_map] at hA2
        obtain ⟨ps, hps, rfl⟩ := hA2
        have hmem := List.mem_filter.mp hps
        have hsum : 0 ≤ ps.sum :=
          List.sum_nonneg fun x hx => le_of_lt (hpos ps hmem.1 x hx)
        rw [avgPerf]
        exact div_nonneg hsum (Nat.cast_nonneg _)
    have hpM : p ≤ listMax (operatorPerformance d) := le_listMax _ _ hp
    constructor
    · rw [relativeScore, hH, if_pos hmax]
      exact mul_nonneg (div_nonneg hp0 (le_of_lt hmax)) (by norm_num)
    · rw [relativeScore, hH, if_pos hmax]
      have hdiv : p / listMax (operatorPerformance d) ≤ 1 := (div_le_one hmax).mpr hpM
      nlinarith [hdiv]

/-- Witness for C7: operators with performance lists [2, 4] and [6] have
averages 3 and 6; the top performer scores exactly 100. -/
theorem C7_relative_score_identity_witness :
    listMax (operatorPerformance [[2, 4], [6]]) = 6 ∧
      relativeScore [[2, 4], [6]] (listMax (operatorPerformance [[2, 4], [6]])) = 100 := by
  have hM : listMax (operatorPerformance [[2, 4], [6]]) = 6 := by
    norm_num [listMax, operatorPerformance, avgPerf, List.foldl, max_def]
  refine ⟨hM, ?_⟩
  exact (C7_relative_score_identity [[2, 4], [6]] (by simp)
    (by norm_num) (by rw [hM]; norm_num)).2.1

/-- Per-validator SUM(COALESCE(att_earned_reward, 0)) of the validator_rewards
CTE in get_theoretical_performance_extended. -/
def actual_rewards (l : List DutyRow) : ℕ :=
  (l.map fun r => r.att_earned_reward.getD 0).sum

/-- Per-validator SUM(COALESCE(att_earned_reward, 0) +
COALESCE(att_missed_reward, 0)). -/
def theoretical_max_rewards (l : List DutyRow) : ℕ :=
  (l.map fun r => r.att_earned_reward.getD 0 + r.att_missed_reward.getD 0).sum

/-- validator_reward_percentage CASE expression, guarded on a positive
per-validator theoretical maximum. -/
def validator_reward_percentage (l : List DutyRow) : ℚ :=
  if 0 < theoretical_max_rewards l then
    (actual_rewards l : ℚ) * 100 / (theoretical_max_rewards l : ℚ)
  else 0

/-- Distinct validators of one operator group (GROUP BY val_id; HAVING
COUNT(*) >= 1 holds for every id that appears). -/
def ext_validator_ids (rows : List DutyRow) (s e : ℤ) (op : ℕ) : List ℕ :=
  ((validator_data rows s e op).map (·.val_id)).dedup

/-- Rows of a single validator inside the operator group. -/
def ext_val_rows (rows : List DutyRow) (s e : ℤ) (op : ℕ) (i : ℕ) : List DutyRow :=
  (validator_data rows s e op).filter fun r => decide (r.val_id = i)

/-- operator_reward_percentage of the extended endpoint: divide the summed
per-validator totals once. -/
def ext_operator_reward_percentage (rows : List DutyRow) (s e : ℤ) (op : ℕ) : ℚ :=
  if 0 < ((ext_validator_ids rows s e op).map fun i =>
      theoretical_max_rewards (ext_val_rows rows s e op i)).sum then
    (((ext_validator_ids rows s e op).map fun i =>
        actual_rewards (ext_val_rows rows s e op i)).sum : ℚ) * 100 /
      (((ext_validator_ids rows s e op).map fun i =>
        theoretical_max_rewards (ext_val_rows rows s e op i)).sum : ℚ)
  else 0

/-- avg_reward_percentage of the extended endpoint: SQL AVG of the
per-validator percentages. -/
def ext_avg_validator_reward_percentage (rows : List DutyRow) (s e : ℤ) (op : ℕ) : ℚ :=
  ((ext_validator_ids rows s e op).map fun i =>
      validator_reward_percentage (ext_val_rows rows s e op i)).sum /
    (((ext_validator_ids rows s e op).map fun i =>
      validator_reward_percentage (ext_val_rows rows s e op i)).length : ℚ)

/-- SUM(CASE WHEN is_active_duty = 1 THEN COALESCE(att_earned_reward, 0) +
COALESCE(att_missed_reward, 0) ELSE 0) of get_theoretical_performance. -/
def total_theoretical_max_rewards (data : List DutyRow) : ℕ :=
  (data.map fun r =>
    if is_active_duty r then
      r.att_earned_reward.getD 0 + r.att_missed_reward.getD 0
    else 0).sum

/-- theoretical_performance CASE of get_theoretical_performance: net rewards
over the active-period theoretical maximum, totals-first. -/
def base_theoretical_performance (data : List DutyRow) : ℚ :=
  if 0 < total_theoretical_max_rewards data then
    (((total_actual_rewards data : ℤ) - (total_penalties data : ℤ) : ℤ) : ℚ) * 100 /
      (total_theoretical_max_rewards data : ℚ)
  else 0

/-- Reward-percentage fields of one operator record of a theoretical
performance response. -/
structure OperatorPctFields where
  operator_reward_percentage : ℚ
  avg_validator_reward_percentage : ℚ
deriving DecidableEq, Repr

/-- Lines 950-956 of routers/nodeset.py: the 1-day endpoint fills BOTH
fields from row[13], the totals-first theoretical_performance value. -/
def base_operator_response (rows : List DutyRow) (s e : ℤ) (op : ℕ) : OperatorPctFields :=
  { operator_reward_percentage := base_theoretical_performance (validator_data rows s e op)
    avg_validator_reward_percentage := base_theoretical_performance (validator_data rows s e op) }

/-- Lines 1149-1150 of routers/nodeset.py: the extended endpoint fills the
two fields from the two distinct rollup strategies. -/
def ext_operator_response (rows : List DutyRow) (s e : ℤ) (op : ℕ) : OperatorPctFields :=
  { operator_reward_percentage := ext_operator_reward_percentage rows s e op
    avg_validator_reward_percentage := ext_avg_validator_reward_percentage rows s e op }

/-- Following the spec's words: totals-first rollup
sum(actual) / sum(ideal) * 100 over per-validator (actual, ideal) pairs. -/
def spec_totals_first (v : List (ℕ × ℕ)) : ℚ :=
  ((v.map Prod.fst).sum : ℚ) / ((v.map Prod.snd).sum : ℚ) * 100

/-- Following the spec's words: arithmetic mean of a list of percentages. -/
def spec_mean (ps : List ℚ) : ℚ := ps.sum / (ps.length : ℚ)

/-- Claim-side field value: the arithmetic mean of the individual
per-validator reward percentages of one operator window. -/
def spec_avg_validator_pct (rows : List DutyRow) (s e : ℤ) (op : ℕ) : ℚ :=
  spec_mean ((ext_validator_ids rows s e op).map fun i =>
    validator_reward_percentage (ext_val_rows rows s e op i))

/-- Operator 1, validator 1: perfect attestation worth 100. -/
def rowVal1 : DutyRow :=
  { rowEarn with
    val_nos_name := some 1
    att_earned_reward := some 100
    att_missed_reward := some 0 }

/-- Operator 1, validator 2: fully missed attestation worth 300. -/
def rowVal2 : DutyRow :=
  { rowEarn with
    val_id := 2
    val_nos_name := some 1
    att_happened := some false
    att_earned_reward := some 0
    att_missed_reward := some 300 }

/-- Counterexample to C1: in the 1-day endpoint's response the field
avg_validator_reward_percentage is the totals-first value 25, not the
arithmetic mean 50 of the individual per-validator percentages (100 and 0),
so not every operator-level response exposes the averaged strategy. -/
theorem C1_response_counterexample :
    (base_operator_response [rowVal1, rowVal2] 0 0 1).avg_validator_reward_percentage ≠
      spec_avg_validator_pct [rowVal1, rowVal2] 0 0 1 := by
  have hdata : validator_data [rowVal1, rowVal2] 0 0 1 = [rowVal1, rowVal2] := by decide
  have hL : (base_operator_response [rowVal1, rowVal2] 0 0 1).avg_validator_reward_percentage
      = 25 := by
    show base_theoretical_performance (validator_data [rowVal1, rowVal2] 0 0 1) = 25
    rw [hdata]
    have h1 : total_theoretical_max_rewards [rowVal1, rowVal2] = 400 := by decide
    have h2 : total_actual_rewards [rowVal1, rowVal2] = 100 := by decide
    have h3 : total_penalties [rowVal1, rowVal2] = 0 := by decide
    rw [base_theoretical_performance, h1, h2, h3]
    norm_num
  have hids : ext_validator_ids [rowVal1, rowVal2] 0 0 1 = [1, 2] := by decide
  have hv1 : ext_val_rows [rowVal1, rowVal2] 0 0 1 1 = [rowVal1] := by decide
  have hv2 : ext_val_rows [rowVal1, rowVal2] 0 0 1 2 = [rowVal2] := by decide
  have hp1 : validator_reward_percentage [rowVal1] = 100 := by
    have ha : actual_rewards [rowVal1] = 100 := by decide
    have ht : theoretical_max_rewards [rowVal1] = 100 := by decide
    rw [validator_reward_percentage, ha, ht]
    norm_num
  have hp2 : validator_reward_percentage [rowVal2] = 0 := by
    have ha : actual_rewards [rowVal2] = 0 := by decide
    have ht : theoretical_max_rewards [rowVal2] = 300 := by decide
    rw [validator_reward_percentage, ha, ht]
    norm_num
  have hR : spec_avg_validator_pct [rowVal1, rowVal2] 0 0 1 = 50 := by
    rw [spec_avg_validator_pct, hids]
    simp only [List.map_cons, List.map_nil, hv1, hv2, hp1, hp2]
    rw [spec_mean]
    norm_num
  rw [hL, hR]
  norm_num

/-- C1 amended: only the extended endpoint exposes the two rollup strategies
side by side — operator_reward_percentage is the totals-first ratio over the
summed per-validator aggregates, avg_validator_reward_percentage is the
arithmetic mean of the per-validator percentages — while the base 1-day
endpoint returns the same totals-first value in both fields. -/
theorem C1_rollup_fields_amended (rows : List DutyRow) (s e : ℤ) (op : ℕ) :
    (ext_operator_response rows s e op).operator_reward_percentage
        = (if 0 < ((ext_validator_ids rows s e op).map fun i =>
              theoretical_max_rewards (ext_val_rows rows s e op i)).sum then
            spec_totals_first ((ext_validator_ids rows s e op).map fun i =>
              (actual_rewards (ext_val_rows rows s e op i),
                theoretical_max_rewards (ext_val_rows rows s e op i)))
          else 0)
    ∧ (ext_operator_response rows s e op).avg_validator_reward_percentage
        = spec_avg_validator_pct rows s e op
    ∧ (base_operator_response rows s e op).operator_reward_percentage
        = (base_operator_response rows s e op).avg_validator_reward_percentage := by
  refine ⟨?_, rfl, rfl⟩
  by_cases h : 0 < ((ext_validator_ids rows s e op).map fun i =>
      theoretical_max_rewards (ext_val_rows rows s e op i)).sum
  · rw [if_pos h]
    show ext_operator_reward_percentage rows s e op = _
    rw [ext_operator_reward_percentage, if_pos h, spec_totals_first, List.map_map,
      List.map_map]
    simp only [Function.comp_def]
    ring
  · rw [if_neg h]
    show ext_operator_reward_percentage rows s e op = 0
    rw [ext_operator_reward_percentage, if_neg h]

/-- Rows of the baseline query of theoretical_performance_all: successful
proposals with a strictly positive earned reward in the window, over all
operators and statuses. -/
def proposal_baseline_rows (rows : List DutyRow) (s e : ℤ) : List ℕ :=
  (rows.filter fun r =>
      decide (s ≤ r.epoch) && decide (r.epoch ≤ e) && r.is_proposer &&
        (r.block_proposed == some true) &&
        decide (0 < r.propose_earned_reward.getD 0)).map
    fun r => r.propose_earned_reward.getD 0

/-- period_avg_reward = float(baseline[0][0]) if truthy else 47000000: the
AVG of the baseline rows, with the fallback on a NULL or zero average. -/
def period_avg_proposal_reward (rows : List DutyRow) (s e : ℤ) : ℚ :=
  if proposal_baseline_rows rows s e = [] then 47000000
  else if ((proposal_baseline_rows rows s e).sum : ℚ) /
      ((proposal_baseline_rows rows s e).length : ℚ) = 0 then 47000000
  else ((proposal_baseline_rows rows s e).sum : ℚ) /
    ((proposal_baseline_rows rows s e).length : ℚ)

/-- SUM(CASE WHEN is_proposer = 1 THEN COALESCE(propose_earned_reward, 0)). -/
def proposer_actual_reward (data : List DutyRow) : ℕ :=
  ((data.filter (·.is_proposer)).map fun r => r.propose_earned_reward.getD 0).sum

/-- Number of proposer duties of the group. -/
def proposer_duties (data : List DutyRow) : ℕ := data.countP (·.is_proposer)

/-- SUM(CASE WHEN is_proposer = 1 THEN period_avg_reward ELSE 0): one
baseline share per proposer duty. -/
def proposer_ideal_reward (data : List DutyRow) (b : ℚ) : ℚ :=
  (proposer_duties data : ℚ) * b

/-- int(float(row[5])): truncation of the nonnegative proposer ideal. -/
def proposer_ideal_parsed (data : List DutyRow) (b : ℚ) : ℤ :=
  ⌊proposer_ideal_reward data b⌋

/-- SUM(CASE WHEN is_sync = 1 THEN COALESCE(sync_earned_reward, 0)). -/
def sync_actual_reward (data : List DutyRow) : ℕ :=
  ((data.filter (·.is_sync)).map fun r => r.sync_earned_reward.getD 0).sum

/-- SUM(CASE WHEN is_sync = 1 THEN COALESCE(sync_earned_reward, 0) +
COALESCE(sync_missed_reward, 0)). -/
def sync_ideal_reward (data : List DutyRow) : ℕ :=
  ((data.filter (·.is_sync)).map fun r =>
    r.sync_earned_reward.getD 0 + r.sync_missed_reward.getD 0).sum

/-- proposer_actual_capped = min(actual, ideal) if ideal > 0 else actual
(line 1306 of routers/nodeset.py). -/
def proposer_actual_capped (data : List DutyRow) (b : ℚ) : ℚ :=
  if 0 < proposer_ideal_parsed data b then
    min (proposer_actual_reward data : ℚ) ((proposer_ideal_parsed data b : ℤ) : ℚ)
  else (proposer_actual_reward data : ℚ)

/-- total_ideal = attester_ideal + proposer_ideal + sync_ideal (the attester
columns of the comprehensive query coincide with actual_rewards and
theoretical_max_rewards). -/
def total_ideal_reward (data : List DutyRow) (b : ℚ) : ℚ :=
  (theoretical_max_rewards data : ℚ) + ((proposer_ideal_parsed data b : ℤ) : ℚ) +
    (sync_ideal_reward data : ℚ)

/-- overall_efficiency = (total_actual_capped * 100.0 / total_ideal) if
total_ideal > 0 else 0.0. -/
def overall_efficiency (data : List DutyRow) (b : ℚ) : ℚ :=
  if 0 < total_ideal_reward data b then
    ((actual_rewards data : ℚ) + proposer_actual_capped data b +
        (sync_actual_reward data : ℚ)) * 100 / total_ideal_reward data b
  else 0

/-- A list of naturals that are all at least 1 sums to at least its length. -/
lemma length_le_sum_of_one_le (l : List ℕ) (h : ∀ x ∈ l, 1 ≤ x) :
    l.length ≤ l.sum := by
  induction l with
  | nil => simp
  | cons a t ih =>
      simp only [List.length_cons, List.sum_cons]
      have ha := h a (List.mem_cons_self a t)
      have ht := ih fun x hx => h x (List.mem_cons_of_mem a hx)
      omega

/-- The proposal baseline is at least 1 gwei: it is either the fallback
47000000 or an average of positive integer rewards. -/
lemma one_le_period_avg (rows : List DutyRow) (s e : ℤ) :
    1 ≤ period_avg_proposal_reward rows s e := by
  rw [period_avg_proposal_reward]
  by_cases hne : proposal_baseline_rows rows s e = []
  · rw [if_pos hne]
    norm_num
  · rw [if_neg hne]
    have hall : ∀ x ∈ proposal_baseline_rows rows s e, 1 ≤ x := by
      intro x hx
      rw [proposal_baseline_rows, List.mem_map] at hx
      obtain ⟨r, hr, rfl⟩ := hx
      have hc := (List.mem_filter.mp hr).2
      simp only [Bool.and_eq_true, decide_eq_true_eq] at hc
      omega
    have hlen : 0 < (proposal_baseline_rows rows s e).length :=
      List.length_pos.mpr hne
    have hsum : (proposal_baseline_rows rows s e).length ≤
        (proposal_baseline_rows rows s e).sum :=
      length_le_sum_of_one_le _ hall
    have h1 : (1 : ℚ) ≤ ((proposal_baseline_rows rows s e).sum : ℚ) /
        ((proposal_baseline_rows rows s e).length : ℚ) := by
      rw [le_div_iff₀ (by exact_mod_cast hlen)]
      rw [one_mul]
      exact_mod_cast hsum
    by_cases h0 : ((proposal_baseline_rows rows s e).sum : ℚ) /
        ((proposal_baseline_rows rows s e).length : ℚ) = 0
    · rw [if_pos h0]
      norm_num
    · rw [if_neg h0]
      exact h1

/-- With a baseline of at least 1, the parsed proposer ideal dominates the
proposer-duty count. -/
lemma proposer_duties_le_parsed (data : List DutyRow) (b : ℚ) (hb : 1 ≤ b) :
    (proposer_duties data : ℤ) ≤ proposer_ideal_parsed data b := by
  rw [proposer_ideal_parsed, Int.le_floor, proposer_ideal_reward]
  push_cast
  nlinarith [Nat.cast_nonneg (α := ℚ) (proposer_duties data)]

/-- Without proposer duties there is no proposer reward mass. -/
lemma proposer_actual_eq_zero_of_no_duties (data : List DutyRow)
    (h : proposer_duties data = 0) : proposer_actual_reward data = 0 := by
  rw [proposer_duties, List.countP_eq_length_filter] at h
  have hf : data.filter (·.is_proposer) = [] := List.length_eq_zero.mp h
  rw [proposer_actual_reward, hf]
  simp

/-- Behaviour of the comprehensive efficiency on one operator group under a
baseline of at least 1 gwei. -/
lemma overall_efficiency_spec (data : List DutyRow) (b : ℚ) (hb : 1 ≤ b) :
    (0 < total_ideal_reward data b →
      overall_efficiency data b =
        ((actual_rewards data : ℚ) +
            min (proposer_actual_reward data : ℚ)
              ((proposer_ideal_parsed data b : ℤ) : ℚ) +
            (sync_actual_reward data : ℚ)) * 100 / total_ideal_reward data b)
    ∧ (total_ideal_reward data b = 0 → overall_efficiency data b = 0)
    ∧ ((actual_rewards data : ℚ) ≤ (theoretical_max_rewards data : ℚ) →
        (sync_actual_reward data : ℚ) ≤ (sync_ideal_reward data : ℚ) →
        overall_efficiency data b ≤ 100) := by
  have hpile : (proposer_duties data : ℤ) ≤ proposer_ideal_parsed data b :=
    proposer_duties_le_parsed data b hb
  have hpi0 : 0 ≤ proposer_ideal_parsed data b :=
    le_trans (by exact_mod_cast Nat.zero_le (proposer_duties data)) hpile
  have hcap_eq : proposer_actual_capped data b =
      min (proposer_actual_reward data : ℚ) ((proposer_ideal_parsed data b : ℤ) : ℚ) := by
    rw [proposer_actual_capped]
    by_cases hpos : 0 < proposer_ideal_parsed data b
    · rw [if_pos hpos]
    · rw [if_neg hpos]
      have hz : proposer_ideal_parsed data b = 0 := le_antisymm (not_lt.mp hpos) hpi0
      have hduties : proposer_duties data = 0 := by
        rw [hz] at hpile
        omega
      have hpa : proposer_actual_reward data = 0 :=
        proposer_actual_eq_zero_of_no_duties data hduties
      rw [hpa, hz]
      norm_num
  have hcaple : proposer_actual_capped data b ≤ ((proposer_ideal_parsed data b : ℤ) : ℚ) := by
    rw [hcap_eq]
    exact min_le_right _ _
  refine ⟨?_, ?_, ?_⟩
  · intro hpos
    rw [overall_efficiency, if_pos hpos, hcap_eq]
  · intro h0
    rw [overall_efficiency, if_neg (by rw [h0]; exact lt_irrefl 0)]
  · intro haa hss
    by_cases hpos : 0 < total_ideal_reward data b
    · rw [overall_efficiency, if_pos hpos]
      have hnum : (actual_rewards data : ℚ) + proposer_actual_capped data b +
          (sync_actual_reward data : ℚ) ≤ total_ideal_reward data b := by
        rw [total_ideal_reward]
        linarith [haa, hss, hcaple]
      rw [div_le_iff₀ hpos]
      linarith [hnum, hpos]
    · rw [overall_efficiency, if_neg hpos]
      norm_num

/-- C8: with the baseline of the comprehensive endpoints, the overall
efficiency is (attester_actual + min(proposer_actual, proposer_ideal) +
sync_actual) / (attester_ideal + proposer_ideal + sync_ideal) * 100 when the
total ideal is positive and 0 when it is 0; whenever the attester and sync
actuals do not exceed their ideals, the overall efficiency cannot exceed 100
regardless of the size of a single proposer reward. -/
theorem C8_proposer_cap (rows : List DutyRow) (s e : ℤ) (op : ℕ) (b : ℚ)
    (hb : b = period_avg_proposal_reward rows s e) :
    (0 < total_ideal_reward (validator_data rows s e op) b →
      overall_efficiency (validator_data rows s e op) b =
        ((actual_rewards (validator_data rows s e op) : ℚ) +
            min (proposer_actual_reward (validator_data rows s e op) : ℚ)
              ((proposer_ideal_parsed (validator_data rows s e op) b : ℤ) : ℚ) +
            (sync_actual_reward (validator_data rows s e op) : ℚ)) * 100 /
          total_ideal_reward (validator_data rows s e op) b)
    ∧ (total_ideal_reward (validator_data rows s e op) b = 0 →
        overall_efficiency (validator_data rows s e op) b = 0)
    ∧ ((actual_rewards (validator_data rows s e op) : ℚ)
          ≤ (theoretical_max_rewards (validator_data rows s e op) : ℚ) →
        (sync_actual_reward (validator_data rows s e op) : ℚ)
          ≤ (sync_ideal_reward (validator_data rows s e op) : ℚ) →
        overall_efficiency (validator_data rows s e op) b ≤ 100) := by
  subst hb
  exact overall_efficiency_spec _ _ (one_le_period_avg rows s e)

/-- Operator 2: perfect attester plus one successful proposal paying far
above the contemporaneous baseline. -/
def propRowBig : DutyRow :=
  { rowEarn with
    val_nos_name := some 2
    att_earned_reward := some 100
    att_missed_reward := some 0
    is_proposer := true
    block_proposed := some true
    propose_earned_reward := some 1000000000 }

/-- Operator 9: a modest successful proposal in the same window. -/
def propRowSmall1 : DutyRow :=
  { rowEarn with
    val_id := 8
    val_nos_name := some 9
    att_earned_reward := some 0
    att_missed_reward := some 0
    is_proposer := true
    block_proposed := some true
    propose_earned_reward := some 1000 }

/-- Operator 10: another modest successful proposal. -/
def propRowSmall2 : DutyRow :=
  { propRowSmall1 with val_id := 9, val_nos_name := some 10 }

/-- Window rows for the C8 witness. -/
def propRows : List DutyRow := [propRowBig, propRowSmall1, propRowSmall2]

/-- Witness for C8: the baseline is (10^9 + 1000 + 1000)/3 = 333334000, the
lucky proposer is capped at it, and the overall efficiency stays at most
100. -/
theorem C8_proposer_cap_witness :
    0 < total_ideal_reward (validator_data propRows 0 0 2)
        (period_avg_proposal_reward propRows 0 0)
    ∧ overall_efficiency (validator_data propRows 0 0 2)
        (period_avg_proposal_reward propRows 0 0) ≤ 100 := by
  have hbase : period_avg_proposal_reward propRows 0 0 = 333334000 := by
    have hxs : proposal_baseline_rows propRows 0 0 = [1000000000, 1000, 1000] := by
      decide
    rw [period_avg_proposal_reward, hxs, if_neg (by simp)]
    norm_num
  have hdata : validator_data propRows 0 0 2 = [propRowBig] := by decide
  have hduty : proposer_duties [propRowBig] = 1 := by decide
  have hpi : proposer_ideal_parsed [propRowBig] 333334000 = 333334000 := by
    rw [proposer_ideal_parsed, proposer_ideal_reward, hduty]
    norm_num
  have hti : total_ideal_reward (validator_data propRows 0 0 2)
      (period_avg_proposal_reward propRows 0 0) = 333334100 := by
    rw [hdata, hbase, total_ideal_reward, hpi]
    have h1 : theoretical_max_rewards [propRowBig] = 100 := by decide
    have h2 : sync_ideal_reward [propRowBig] = 0 := by decide
    rw [h1, h2]
    norm_num
  refine ⟨by rw [hti]; norm_num, ?_⟩
  refine (C8_proposer_cap propRows 0 0 2 (period_avg_proposal_reward propRows 0 0)
    rfl).2.2 ?_ ?_
  · rw [hdata]
    have h1 : actual_rewards [propRowBig] = 100 := by decide
    have h2 : theoretical_max_rewards [propRowBig] = 100 := by decide
    rw [h1, h2]
  · rw [hdata]
    have h1 : sync_actual_reward [propRowBig] = 0 := by decide
    have h2 : sync_ideal_reward [propRowBig] = 0 := by decide
    rw [h1, h2]
